import Mathlib

/-!
Verification of the core of the rivian-python-client repository: the
crypto/signing utilities (`src/rivian/utils.py`), the websocket
subscription monitor (`src/rivian/ws_monitor.py`) and the BLE pairing
handshake (`src/rivian/ble.py`), shallowly embedded in Lean.

Bytes are modelled as `List Nat` with every element below 256 (enforced by
construction through `% 256`); Python `str` values are modelled as
`List Char` where character-level operations matter and as `String` for
opaque identifiers.
-/

namespace Rivian

/-! ## Byte-level utilities: big-endian serialization, hex, UTF-8 -/

/-- Big-endian serialization of a natural number into `k` bytes
(the low `8 * k` bits). Each output byte is below 256 by construction. -/
def natToBytesBE : Nat → Nat → List Nat
  | 0, _ => []
  | k + 1, x => natToBytesBE k (x / 256) ++ [x % 256]

theorem natToBytesBE_length (k x : Nat) : (natToBytesBE k x).length = k := by
  induction k generalizing x with
  | zero => rfl
  | succ k ih => simp [natToBytesBE, ih]

theorem natToBytesBE_lt (k x : Nat) : ∀ b ∈ natToBytesBE k x, b < 256 := by
  induction k generalizing x with
  | zero => simp [natToBytesBE]
  | succ k ih =>
    intro b hb
    simp only [natToBytesBE, List.mem_append, List.mem_singleton] at hb
    rcases hb with hb | hb
    · exact ih _ b hb
    · omega

/-- Lower-case hex digit for a value below 16, as produced by Python's
`hexdigest`/`bytes.hex`. -/
def hexDigitChar (d : Nat) : Char :=
  match d with
  | 0 => '0' | 1 => '1' | 2 => '2' | 3 => '3' | 4 => '4'
  | 5 => '5' | 6 => '6' | 7 => '7' | 8 => '8' | 9 => '9'
  | 10 => 'a' | 11 => 'b' | 12 => 'c' | 13 => 'd' | 14 => 'e' | 15 => 'f'
  | _ => '0'

/-- Numeric value of a hex digit character, accepting both cases, as
Python's `bytes.fromhex` does. -/
def hexDigitVal (c : Char) : Nat :=
  if c.toNat ≥ 97 then c.toNat - 87
  else if c.toNat ≥ 65 then c.toNat - 55
  else c.toNat - 48

/-- Two lower-case hex characters for one byte. -/
def byteToHex (b : Nat) : List Char :=
  [hexDigitChar (b / 16), hexDigitChar (b % 16)]

/-- Model of Python `bytes.hex()` / `hexdigest()`: lower-case hex string. -/
def bytesToHex (bs : List Nat) : List Char :=
  bs.flatMap byteToHex

/-- Model of Python `bytes.fromhex`: consume hex characters two at a time. -/
def bytesFromHex : List Char → List Nat
  | c1 :: c2 :: rest => (16 * hexDigitVal c1 + hexDigitVal c2) :: bytesFromHex rest
  | _ => []

theorem hexDigitVal_hexDigitChar : ∀ d < 16, hexDigitVal (hexDigitChar d) = d := by
  decide

theorem bytesFromHex_bytesToHex (bs : List Nat) (h : ∀ b ∈ bs, b < 256) :
    bytesFromHex (bytesToHex bs) = bs := by
  induction bs with
  | nil => rfl
  | cons b rest ih =>
    have hb : b < 256 := h b (List.mem_cons_self b rest)
    have hdiv : b / 16 < 16 := by omega
    have hmod : b % 16 < 16 := Nat.mod_lt _ (by norm_num)
    simp only [bytesToHex, byteToHex, List.flatMap_cons, List.cons_append,
      List.nil_append, bytesFromHex]
    rw [hexDigitVal_hexDigitChar _ hdiv, hexDigitVal_hexDigitChar _ hmod,
      Nat.div_add_mod b 16]
    exact congrArg (b :: ·) (ih fun x hx => h x (List.mem_cons_of_mem b hx))

/-- UTF-8 encoding of one character (by Unicode scalar value). -/
def utf8EncodeChar (c : Char) : List Nat :=
  let n := c.toNat
  if n < 128 then [n]
  else if n < 2048 then [192 + n / 64, 128 + n % 64]
  else if n < 65536 then [224 + n / 4096, 128 + n / 64 % 64, 128 + n % 64]
  else [240 + n / 262144, 128 + n / 4096 % 64, 128 + n / 64 % 64, 128 + n % 64]

/-- Model of Python `str.encode("utf-8")` on a string viewed as its
characters. -/
def utf8Encode (s : List Char) : List Nat :=
  s.flatMap utf8EncodeChar

theorem utf8Encode_append (s t : List Char) :
    utf8Encode (s ++ t) = utf8Encode s ++ utf8Encode t := by
  simp [utf8Encode]

/-! ## SHA-256, HMAC-SHA256 and HKDF-SHA256

Concrete executable implementations of the primitives the Python code
reaches through `hashlib`, `hmac` and `cryptography`; machine words are
naturals kept below `2 ^ 32` by explicit reduction. -/

/-- Right rotation of a 32-bit word. -/
def rotr32 (k x : Nat) : Nat :=
  (x / 2 ^ k + x % 2 ^ k * 2 ^ (32 - k)) % 2 ^ 32

/-- Addition modulo `2 ^ 32`. -/
def add32 (a b : Nat) : Nat := (a + b) % 2 ^ 32

/-- Bitwise complement within 32 bits. -/
def not32 (x : Nat) : Nat := Nat.xor x (2 ^ 32 - 1)

/-- SHA-256 `Ch` function. -/
def shaCh (e f g : Nat) : Nat := Nat.xor (Nat.land e f) (Nat.land (not32 e) g)

/-- SHA-256 `Maj` function. -/
def shaMaj (a b c : Nat) : Nat :=
  Nat.xor (Nat.xor (Nat.land a b) (Nat.land a c)) (Nat.land b c)

/-- SHA-256 big sigma 0. -/
def bigSigma0 (x : Nat) : Nat := Nat.xor (Nat.xor (rotr32 2 x) (rotr32 13 x)) (rotr32 22 x)

/-- SHA-256 big sigma 1. -/
def bigSigma1 (x : Nat) : Nat := Nat.xor (Nat.xor (rotr32 6 x) (rotr32 11 x)) (rotr32 25 x)

/-- SHA-256 small sigma 0. -/
def smallSigma0 (x : Nat) : Nat := Nat.xor (Nat.xor (rotr32 7 x) (rotr32 18 x)) (x / 2 ^ 3)

/-- SHA-256 small sigma 1. -/
def smallSigma1 (x : Nat) : Nat := Nat.xor (Nat.xor (rotr32 17 x) (rotr32 19 x)) (x / 2 ^ 10)

/-- The 64 SHA-256 round constants (FIPS 180-4, in decimal). -/
def shaK : List Nat :=
  [1116352408, 1899447441, 3049323471, 3921009573, 961987163,
   1508970993, 2453635748, 2870763221, 3624381080, 310598401,
   607225278, 1426881987, 1925078388, 2162078206, 2614888103,
   3248222580, 3835390401, 4022224774, 264347078, 604807628,
   770255983, 1249150122, 1555081692, 1996064986, 2554220882,
   2821834349, 2952996808, 3210313671, 3336571891, 3584528711,
   113926993, 338241895, 666307205, 773529912, 1294757372,
   1396182291, 1695183700, 1986661051, 2177026350, 2456956037,
   2730485921, 2820302411, 3259730800, 3345764771, 3516065817,
   3600352804, 4094571909, 275423344, 430227734, 506948616,
   659060556, 883997877, 958139571, 1322822218, 1537002063,
   1747873779, 1955562222, 2024104815, 2227730452, 2361852424,
   2428436474, 2756734187, 3204031479, 3329325298]

/-- Working state of the SHA-256 compression function. -/
structure Hash8 where
  a : Nat
  b : Nat
  c : Nat
  d : Nat
  e : Nat
  f : Nat
  g : Nat
  h : Nat

/-- Initial SHA-256 hash value (FIPS 180-4, in decimal). -/
def shaInit : Hash8 :=
  ⟨1779033703, 3144134277, 1013904242, 2773480762,
   1359893119, 2600822924, 528734635, 1541459225⟩

/-- One SHA-256 round. -/
def shaRound (st : Hash8) (kw w : Nat) : Hash8 :=
  let t1 := add32 (add32 (add32 st.h (bigSigma1 st.e)) (add32 (shaCh st.e st.f st.g) kw)) w
  let t2 := add32 (bigSigma0 st.a) (shaMaj st.a st.b st.c)
  ⟨add32 t1 t2, st.a, st.b, st.c, add32 st.d t1, st.e, st.f, st.g⟩

/-- Component-wise addition of hash states modulo `2 ^ 32`. -/
def addHash8 (x y : Hash8) : Hash8 :=
  ⟨add32 x.a y.a, add32 x.b y.b, add32 x.c y.c, add32 x.d y.d,
   add32 x.e y.e, add32 x.f y.f, add32 x.g y.g, add32 x.h y.h⟩

/-- SHA-256 message padding: append `0x80`, zeros to 56 mod 64, and the
64-bit big-endian bit length. -/
def shaPad (msg : List Nat) : List Nat :=
  msg ++ 128 :: List.replicate ((119 - msg.length % 64) % 64) 0
      ++ natToBytesBE 8 (8 * msg.length)

/-- Group bytes into big-endian 32-bit words. -/
def bytesToWords : List Nat → List Nat
  | b0 :: b1 :: b2 :: b3 :: rest => (((b0 * 256 + b1) * 256 + b2) * 256 + b3) :: bytesToWords rest
  | _ => []

/-- Extend the (reversed) message schedule by `n` words. -/
def extendSchedule : Nat → List Nat → List Nat
  | 0, ws => ws
  | n + 1, ws =>
    extendSchedule n
      (add32 (add32 (smallSigma1 (ws.getD 1 0)) (ws.getD 6 0))
        (add32 (smallSigma0 (ws.getD 14 0)) (ws.getD 15 0)) :: ws)

/-- The 64-word message schedule of one 64-byte block. -/
def scheduleOf (block : List Nat) : List Nat :=
  (extendSchedule 48 (bytesToWords block).reverse).reverse

/-- SHA-256 compression of one block into the running hash. -/
def compressBlock (st : Hash8) (block : List Nat) : Hash8 :=
  addHash8 st
    ((shaK.zip (scheduleOf block)).foldl (fun s p => shaRound s p.1 p.2) st)

/-- Split a byte list into 64-byte chunks. -/
def chunk64 : List Nat → List (List Nat)
  | [] => []
  | x :: xs => (x :: xs).take 64 :: chunk64 ((x :: xs).drop 64)
termination_by l => l.length
decreasing_by simp [List.length_drop]; omega

/-- Serialize a hash state to its 32-byte big-endian digest. -/
def hashToBytes (st : Hash8) : List Nat :=
  natToBytesBE 4 st.a ++ natToBytesBE 4 st.b ++ natToBytesBE 4 st.c ++ natToBytesBE 4 st.d
    ++ natToBytesBE 4 st.e ++ natToBytesBE 4 st.f ++ natToBytesBE 4 st.g ++ natToBytesBE 4 st.h

/-- SHA-256 of a byte string. -/
def sha256 (msg : List Nat) : List Nat :=
  hashToBytes ((chunk64 (shaPad msg)).foldl compressBlock shaInit)

theorem hashToBytes_length (st : Hash8) : (hashToBytes st).length = 32 := by
  simp [hashToBytes, natToBytesBE_length]

theorem hashToBytes_lt (st : Hash8) : ∀ b ∈ hashToBytes st, b < 256 := by
  intro b hb
  simp only [hashToBytes, List.mem_append] at hb
  rcases hb with ((((((hb | hb) | hb) | hb) | hb) | hb) | hb) | hb <;>
    exact natToBytesBE_lt _ _ b hb

theorem sha256_length (msg : List Nat) : (sha256 msg).length = 32 :=
  hashToBytes_length _

theorem sha256_lt (msg : List Nat) : ∀ b ∈ sha256 msg, b < 256 :=
  hashToBytes_lt _

/-- HMAC-SHA256 (RFC 2104) with 64-byte block size, as Python's
`hmac.new(key, msg, hashlib.sha256)`. -/
def hmacSha256 (key msg : List Nat) : List Nat :=
  let key1 := if 64 < key.length then sha256 key else key
  let padded := key1 ++ List.replicate (64 - key1.length) 0
  sha256 (padded.map (fun b => Nat.xor b 0x5c)
    ++ sha256 (padded.map (fun b => Nat.xor b 0x36) ++ msg))

theorem hmacSha256_length (key msg : List Nat) : (hmacSha256 key msg).length = 32 :=
  sha256_length _

theorem hmacSha256_lt (key msg : List Nat) : ∀ b ∈ hmacSha256 key msg, b < 256 :=
  sha256_lt _

/-- HKDF-SHA256 with empty salt and info, output length 32 (RFC 5869):
extract with a zero salt, then the 32-byte output is the single block
`HMAC(PRK, 0x01)`. This is `HKDF(algorithm=SHA256(), length=32, salt=None,
info=b"")` as used by `get_secret_key`. -/
def hkdfSha256Len32 (ikm : List Nat) : List Nat :=
  hmacSha256 (hmacSha256 (List.replicate 32 0) ikm) [1]

/-! ## Crypto model of `src/rivian/utils.py`

The Python code delegates elliptic-curve arithmetic to the external
`cryptography` package (curve SECP256R1/P-256). That curve's rational
points form a cyclic group of prime order `p256Order`; the embedding
represents a point by its discrete logarithm to the standard base point,
i.e. by an element of `ZMod p256Order`, with the base point `G`
represented by `1`. A private key is its scalar; `ECDH(d, Q)` is scalar
multiplication `d • Q`; the shared-secret bytes handed to HKDF are an
injective 32-byte serialization of the resulting point (standing in for
the x-coordinate encoding, which is injective on the subgroup up to
negation and is applied here to equal points only). The PEM/hex key
serializations of `utils.py` round-trip through the external library and
are transparent in this representation. -/

/-- The (prime) order of the P-256 base-point group. -/
def p256Order : Nat :=
  0xffffffff00000000ffffffffffffffffbce6faada7179e84f3b9cac2fc632551

/-- A point of the P-256 base-point group, represented by its discrete
logarithm to the base point. -/
abbrev P256Point := ZMod p256Order

/-- The P-256 base point in the discrete-logarithm representation. -/
def p256Base : P256Point := 1

/-- Serialization of a group point to 32 bytes (the shared-secret bytes
`private_key.exchange(ec.ECDH(), public_key)` hands to HKDF). -/
def pointToBytes (P : P256Point) : List Nat :=
  natToBytesBE 32 P.val

/-- Model of `utils.generate_key_pair`: from the freshly drawn random
scalar `d`, return the (public key, private key) pair, the public key
being the point `d • G`. -/
def generate_key_pair (d : Nat) : P256Point × Nat :=
  (d • p256Base, d)

/-- Model of `utils.get_secret_key(private_key_str, public_key_str)`:
decode both keys, perform the ECDH exchange and stretch the shared
secret with `HKDF(SHA256, length=32, salt=None, info=b"")`. -/
def get_secret_key (private_key : Nat) (public_key : P256Point) : List Nat :=
  hkdfSha256Len32 (pointToBytes (private_key • public_key))

/-- Model of `utils.get_message_signature`: the hex digest of
`hmac.new(secret_key, message, hashlib.sha256)`. -/
def get_message_signature (secret_key message : List Nat) : List Char :=
  bytesToHex (hmacSha256 secret_key message)

/-- Model of `utils.generate_vehicle_command_hmac(command, timestamp,
vehicle_key, private_key)`: sign the UTF-8 bytes of `command + timestamp`
with the derived secret key and return the hex digest. -/
def generate_vehicle_command_hmac (command timestamp : List Char)
    (vehicle_key : P256Point) (private_key : Nat) : List Char :=
  get_message_signature (get_secret_key private_key vehicle_key)
    (utf8Encode (command ++ timestamp))

/-- Model of `utils.generate_ble_command_hmac(hmac_data, vehicle_key,
private_key)`: `bytes.fromhex` of the hex signature, i.e. the raw MAC. -/
def generate_ble_command_hmac (hmac_data : List Nat)
    (vehicle_key : P256Point) (private_key : Nat) : List Nat :=
  bytesFromHex (get_message_signature (get_secret_key private_key vehicle_key) hmac_data)

/-! ## Model of `src/rivian/ws_monitor.py` (`WebSocketMonitor`)

State machine embedding of the subscription monitor. The registry
`_subscriptions` is a Python `dict` keyed by client-generated UUID
strings; a `dict` iterates in insertion order, so the registry is an
insertion-ordered association list whose keys are unique. Callbacks are
identified by an opaque tag, payloads modelled as their JSON text.
Scheduling nondeterminism (does `new_connection` succeed, does the
`connection_ack` frame arrive before `request_timeout`, which jitter did
`uniform(0, 1)` draw) is passed in explicitly as environment values. -/

/-- One registry entry of `WebSocketMonitor._subscriptions`:
`id : (callback, payload)`. -/
structure Sub where
  id : String
  cb : Nat
  payload : String
deriving Repr, DecidableEq

/-- The mutable state of a `WebSocketMonitor`: the registry, the
`_disconnect` flag, whether `_ws` is a non-`None` open websocket, whether
the `_connection_ack` event is set, and the reconnect attempt counter
local to `_monitor`. -/
structure MonState where
  subs : List Sub
  disconnect : Bool
  wsOpen : Bool
  acked : Bool
  attempt : Nat
deriving Repr, DecidableEq

/-- Model of the `WebSocketMonitor.connected` property:
`False` when `_disconnect` is set, else whether `_ws` is open. -/
def connected (s : MonState) : Bool :=
  !s.disconnect && s.wsOpen

/-- Outbound frames of the graphql-transport-ws protocol as the monitor
sends them. -/
inductive Frame
  | connectionInit
  | subscribe (id : String) (payload : String)
  | complete (id : String)
deriving Repr, DecidableEq

/-- Observable effects of the monitor and receiver: opening a new
transport (`new_connection`), waiting on the `_connection_ack` event,
sending a frame, invoking a subscription callback, sleeping for a backoff
delay (seconds), and logging. -/
inductive Action
  | newConnection
  | ackWait
  | send (f : Frame)
  | invoke (cb : Nat) (id : String) (payload : String)
  | sleep (q : ℚ)
  | logMsg
deriving Repr, DecidableEq

/-- Inbound text frames as `_receiver` classifies them by their `type`. -/
inductive TextData
  | connectionAck
  | next (id : String) (payload : String)
  | other
deriving Repr, DecidableEq

/-- One received websocket message: a close-family message carrying its
`extra` reason, a text frame, an error frame, or a 60 s read timeout. -/
inductive WSMsg
  | close (extra : Option String)
  | text (t : TextData)
  | error
  | timeout
deriving Repr, DecidableEq

/-- Model of `WebSocketMonitor._resubscribe_all`: wait (bounded by
`request_timeout`) for the `_connection_ack` event — `ackOk` says whether
it was or became set in time — and on success re-send one subscribe frame
per registry entry, in registry order, with the stored payload; on
timeout, log and send nothing. -/
def resubscribe_all (ackOk : Bool) (subs : List Sub) : List Action :=
  if ackOk then
    Action.ackWait :: subs.map (fun sub => Action.send (Frame.subscribe sub.id sub.payload))
  else [Action.ackWait, Action.logMsg]

/-- Model of one step of `WebSocketMonitor._receiver`: process one
received message, returning the new state, the emitted actions and
whether the receive loop keeps running (`false` = the `break` on a
close-family message). -/
def receiverStep (s : MonState) (msg : WSMsg) : MonState × List Action × Bool :=
  match msg with
  | WSMsg.close extra =>
    ({ s with disconnect := if extra = some "Unauthenticated" then true else s.disconnect },
     [Action.logMsg], false)
  | WSMsg.text TextData.connectionAck => ({ s with acked := true }, [], true)
  | WSMsg.text (TextData.next id payload) =>
    match s.subs.find? (fun sub => sub.id == id) with
    | some sub => (s, [Action.invoke sub.cb id payload], true)
    | none => (s, [], true)
  | WSMsg.text TextData.other => (s, [Action.logMsg], true)
  | WSMsg.error => (s, [Action.logMsg], true)
  | WSMsg.timeout => (s, resubscribe_all s.acked s.subs, true)

/-- Model of `WebSocketMonitor.start_subscription`: `None` unless
`connected`; otherwise register `(callback, payload)` under the fresh
UUID and send the subscribe frame, returning the id the unsubscribe
closure captures. -/
def start_subscription (s : MonState) (freshId : String) (cb : Nat) (payload : String) :
    Option String × MonState × List Frame :=
  if connected s then
    (some freshId, { s with subs := s.subs ++ [⟨freshId, cb, payload⟩] },
     [Frame.subscribe freshId payload])
  else (none, s, [])

/-- Model of the `unsubscribe` closure returned by `start_subscription`:
if the captured id is still registered, delete it and — only if still
`connected` — send the `complete` frame; otherwise do nothing. -/
def unsubscribe (s : MonState) (id : String) : MonState × List Frame :=
  if s.subs.any (fun sub => sub.id == id) then
    ({ s with subs := s.subs.filter (fun sub => !(sub.id == id)) },
     if connected s then [Frame.complete id] else [])
  else (s, [])

/-- Environment of one pass of the monitor's reconnect logic: whether
`new_connection` completed and left an open websocket, whether the
`connection_ack` arrived within `request_timeout`, and the jitter
`uniform(0, 1)` drew. -/
structure ReconnectEnv where
  connectOk : Bool
  ackOk : Bool
  jitter : ℚ
deriving Repr, DecidableEq

/-- The backoff delay `min(1 * 2 ** attempt + uniform(0, 1), 300)` of
`WebSocketMonitor._monitor`. -/
def backoffDelay (attempt : Nat) (jitter : ℚ) : ℚ :=
  min (1 * 2 ^ attempt + jitter) 300

/-- Model of one iteration of the reconnect body of
`WebSocketMonitor._monitor` (reached with the websocket down and
`_disconnect` unset): try `new_connection` (which sends the
connection-init frame); if the websocket is still down, sleep the backoff
delay and bump the attempt counter; otherwise reset the counter to 0, log
and replay the registry via `_resubscribe_all`. -/
def reconnectRound (s : MonState) (env : ReconnectEnv) : MonState × List Action :=
  if env.connectOk then
    ({ s with wsOpen := true, disconnect := false, acked := env.ackOk, attempt := 0 },
     Action.newConnection :: Action.send Frame.connectionInit :: Action.logMsg
       :: resubscribe_all env.ackOk s.subs)
  else
    ({ s with wsOpen := false, attempt := s.attempt + 1 },
     [Action.newConnection, Action.logMsg, Action.sleep (backoffDelay s.attempt env.jitter)])

/-- Model of the `_monitor` loop: while `_disconnect` is unset, either
idle while connected or run one reconnect round; bounded by fuel and by
the list of per-round environments. -/
def monitorRun : Nat → MonState → List ReconnectEnv → List Action
  | 0, _, _ => []
  | _ + 1, _, [] => []
  | fuel + 1, s, env :: rest =>
    if s.disconnect then []
    else if connected s then Action.sleep 1 :: monitorRun fuel s rest
    else
      (reconnectRound s env).2 ++ monitorRun fuel (reconnectRound s env).1 rest

/-- Environment of `Rivian.subscribe_for_vehicle_updates`: whether a
needed `new_connection` inside `_ws_connect` succeeds, whether the
`connection_ack` event is or becomes set within `request_timeout`, and
the fresh UUID `start_subscription` draws. -/
structure SubscribeEnv where
  connectOk : Bool
  ackOk : Bool
  freshId : String
deriving Repr, DecidableEq

/-- Model of `Rivian.subscribe_for_vehicle_updates` (`rivian.py`), the
public subscribe entry point: `_ws_connect` reuses an open websocket or
opens a new one (sending the connection-init frame), then waits — bounded
by `request_timeout` — for the `_connection_ack` event, then calls
`start_subscription`; any exception (connect failure, `TimeoutError`) is
caught and turned into `None`. Returns the unsubscribe handle (as its
captured id), the new state and the frames sent during the call. -/
def subscribe_for_vehicle_updates (s : MonState) (env : SubscribeEnv)
    (cb : Nat) (payload : String) : Option String × MonState × List Frame :=
  if connected s then
    if s.acked || env.ackOk then
      start_subscription { s with acked := true } env.freshId cb payload
    else (none, s, [])
  else if env.connectOk then
    if env.ackOk then
      match start_subscription
          { s with wsOpen := true, disconnect := false, acked := true }
          env.freshId cb payload with
      | (handle, s1, frames) => (handle, s1, Frame.connectionInit :: frames)
    else (none, { s with wsOpen := true, disconnect := false, acked := false },
      [Frame.connectionInit])
  else (none, s, [])

/-! ## Model of `src/rivian/ble.py` (`pair_phone`)

Sequential embedding of the BLE pairing handshake. Every awaited BLE
operation can raise (connect timeout, notification setup failure, GATT
write error, `asyncio.wait_for` timeout); the whole body of `pair_phone`
sits inside one broad `except Exception` that logs and falls through to
`return False`, so the model is a total function to a boolean result plus
the trace of successful GATT writes `(characteristic UUID, bytes)`. The
bonding trigger differs by platform (notify on the protected
characteristic on Darwin, `client.pair()` elsewhere) but both paths are a
single awaited operation whose success `bondOk` records. -/

def ACTIVE_ENTRY_CHARACTERISTIC_UUID : String := "5249565F-4D4F-424B-4559-5F5752495445"

def PHONE_ID_VEHICLE_ID_UUID : String := "AA49565A-4D4F-424B-4559-5F5752495445"

def PHONE_NONCE_VEHICLE_NONCE_UUID : String := "E020A15D-E730-4B2C-908B-51DAF9D41E19"

/-- Python `str.replace("-", "")`: drop every dash. -/
def stripDashes (s : List Char) : List Char :=
  s.filter (fun c => !(c == '-'))

/-- Environment of one `pair_phone` attempt: for each awaited step,
whether it completed without raising; the identity notification's data
(`none` = the bounded wait timed out); and the 16 random bytes
`secrets.token_bytes(16)` drew for the phone nonce. -/
structure BleEnv where
  connectOk : Bool
  idNotifySetupOk : Bool
  nonceNotifySetupOk : Bool
  idWriteOk : Bool
  idNotifData : Option (List Nat)
  nonceWriteOk : Bool
  nonceNotifOk : Bool
  phoneNonce : List Nat
  bondOk : Bool
deriving Repr, DecidableEq

/-- Model of `ble.pair_phone(device, phone_id, vas_vehicle_id,
vehicle_key, private_key)`: connect, arm both notification channels,
write the dash-stripped hex-decoded phone id, wait for the vehicle
identity notification, compare its hex against the dash-stripped expected
id, then write `nonce || hmac` and wait for the nonce notification, then
trigger bonding. Returns the boolean result and the successful GATT
writes in order. -/
def pair_phone (env : BleEnv) (phone_id vas_vehicle_id : List Char)
    (vehicle_key : P256Point) (private_key : Nat) : Bool × List (String × List Nat) :=
  if !env.connectOk then (false, [])
  else if !env.idNotifySetupOk then (false, [])
  else if !env.nonceNotifySetupOk then (false, [])
  else if !env.idWriteOk then (false, [])
  else
    let writes1 := [(PHONE_ID_VEHICLE_ID_UUID, bytesFromHex (stripDashes phone_id))]
    match env.idNotifData with
    | none => (false, writes1)
    | some data =>
      if data.isEmpty then (false, writes1)
      else if !(bytesToHex data == stripDashes vas_vehicle_id) then (false, writes1)
      else if !env.nonceWriteOk then (false, writes1)
      else
        let writes2 := writes1 ++
          [(PHONE_NONCE_VEHICLE_NONCE_UUID,
            env.phoneNonce ++ generate_ble_command_hmac env.phoneNonce vehicle_key private_key)]
        if !env.nonceNotifOk then (false, writes2)
        else if !env.bondOk then (false, writes2)
        else (true, writes2)

/-- The conjunction of all step outcomes of one `pair_phone` attempt:
connect, both notification setups, the identity write, a timely non-empty
identity notification matching the expected vehicle id, the nonce write,
the nonce notification and the bonding trigger. -/
def allStepsOk (env : BleEnv) (vas_vehicle_id : List Char) : Bool :=
  env.connectOk && env.idNotifySetupOk && env.nonceNotifySetupOk && env.idWriteOk &&
    (match env.idNotifData with
     | none => false
     | some data => !data.isEmpty && (bytesToHex data == stripDashes vas_vehicle_id)) &&
    env.nonceWriteOk && env.nonceNotifOk && env.bondOk

/-! ## Claim theorems -/

theorem one_le_two_pow_q (n : Nat) : (1 : ℚ) ≤ 2 ^ n := by
  induction n with
  | zero => norm_num
  | succ k ih => rw [pow_succ]; nlinarith

/-- C3: ECDH symmetry round-trip. For any two independently generated
P-256 key pairs A (scalar `a`) and B (scalar `b`), `get_secret_key`
applied to (A private key, B public key) yields the same 32-byte key as
applied to (B private key, A public key). -/
theorem c3_ecdh_symmetry (a b : Nat) :
    get_secret_key (generate_key_pair a).2 (generate_key_pair b).1
        = get_secret_key (generate_key_pair b).2 (generate_key_pair a).1
      ∧ (get_secret_key (generate_key_pair a).2 (generate_key_pair b).1).length = 32 := by
  constructor
  · simp only [get_secret_key, generate_key_pair, p256Base, nsmul_eq_mul]
    have h : (a : ZMod p256Order) * ((b : ZMod p256Order) * 1)
        = (b : ZMod p256Order) * ((a : ZMod p256Order) * 1) := by ring
    rw [h]
  · simp only [get_secret_key, hkdfSha256Len32]
    exact hmacSha256_length _ _

/-- C4: remote-command signature framing. `generate_vehicle_command_hmac`
computes HMAC-SHA256 over exactly the UTF-8 bytes of the direct
concatenation `command + timestamp` (no separator), keyed by the
ECDH/HKDF-derived 32-byte key, returned as a hex string, while
`generate_ble_command_hmac` returns the same underlying HMAC primitive as
raw 32 bytes. -/
theorem c4_command_signature_framing (command timestamp : List Char)
    (vehicle_key : P256Point) (private_key : Nat) (hmac_data : List Nat) :
    generate_vehicle_command_hmac command timestamp vehicle_key private_key
        = bytesToHex (hmacSha256 (get_secret_key private_key vehicle_key)
            (utf8Encode command ++ utf8Encode timestamp))
      ∧ generate_ble_command_hmac hmac_data vehicle_key private_key
        = hmacSha256 (get_secret_key private_key vehicle_key) hmac_data
      ∧ (get_secret_key private_key vehicle_key).length = 32
      ∧ (generate_ble_command_hmac hmac_data vehicle_key private_key).length = 32 := by
  have hraw : generate_ble_command_hmac hmac_data vehicle_key private_key
      = hmacSha256 (get_secret_key private_key vehicle_key) hmac_data := by
    unfold generate_ble_command_hmac get_message_signature
    exact bytesFromHex_bytesToHex _ (hmacSha256_lt _ _)
  refine ⟨?_, hraw, ?_, ?_⟩
  · unfold generate_vehicle_command_hmac get_message_signature
    rw [utf8Encode_append]
  · simp only [get_secret_key, hkdfSha256Len32]
    exact hmacSha256_length _ _
  · rw [hraw]
    exact hmacSha256_length _ _

/-- C5: reconnect backoff bound and reset. The delay slept when the
attempt counter is `n` is `min(1 * 2 ^ n + jitter, 300)` with jitter in
`[0, 1)`; it never exceeds 300 seconds, does not decrease from one failed
attempt to the next, the counter increments after a failed attempt, and
resets to 0 on a successful reconnection. -/
theorem c5_backoff_bound_and_reset (s : MonState) (env : ReconnectEnv) (n : Nat)
    (j1 j2 : ℚ) (_h1 : 0 ≤ j1) (h2 : j1 < 1) (h3 : 0 ≤ j2) :
    backoffDelay n j1 ≤ 300
      ∧ backoffDelay n j1 ≤ backoffDelay (n + 1) j2
      ∧ (env.connectOk = false →
          (reconnectRound s env).2
            = [Action.newConnection, Action.logMsg,
               Action.sleep (backoffDelay s.attempt env.jitter)]
          ∧ (reconnectRound s env).1.attempt = s.attempt + 1)
      ∧ (env.connectOk = true → (reconnectRound s env).1.attempt = 0) := by
  refine ⟨min_le_right _ _, ?_, ?_, ?_⟩
  · unfold backoffDelay
    refine min_le_min ?_ le_rfl
    have hp : (1 : ℚ) ≤ 2 ^ n := one_le_two_pow_q n
    have hs : (2 : ℚ) ^ (n + 1) = 2 * 2 ^ n := by ring
    nlinarith
  · intro h
    constructor <;> simp [reconnectRound, h]
  · intro h
    simp [reconnectRound, h]

theorem c5_backoff_bound_and_reset_witness :
    backoffDelay 3 (1 / 2) ≤ 300 ∧ backoffDelay 3 (1 / 2) ≤ backoffDelay 4 0 :=
  ⟨(c5_backoff_bound_and_reset ⟨[], false, false, false, 3⟩ ⟨false, false, 1 / 2⟩ 3
      (1 / 2) 0 (by norm_num) (by norm_num) le_rfl).1,
   (c5_backoff_bound_and_reset ⟨[], false, false, false, 3⟩ ⟨false, false, 1 / 2⟩ 3
      (1 / 2) 0 (by norm_num) (by norm_num) le_rfl).2.1⟩

/-- Whether an action is the sending of a subscribe frame. -/
def isSubscribeSend : Action → Bool
  | Action.send (Frame.subscribe _ _) => true
  | _ => false

theorem filter_isSubscribeSend_map (l : List Sub) :
    (l.map (fun sub => Action.send (Frame.subscribe sub.id sub.payload))).filter
        isSubscribeSend
      = l.map (fun sub => Action.send (Frame.subscribe sub.id sub.payload)) := by
  induction l with
  | nil => rfl
  | cons x xs ih => simp [List.filter, isSubscribeSend, ih]

/-- C1: resubscription replay. After a successful reconnect whose
`connection_ack` arrives in time, the monitor emits exactly one subscribe
frame per registry entry, in registry (insertion) order, each with the
originally stored payload, with no waiting between the individual
subscribe frames (the single ack wait precedes them all). -/
theorem c1_resubscription_replay (s : MonState) (env : ReconnectEnv)
    (hc : env.connectOk = true) (ha : env.ackOk = true) :
    (reconnectRound s env).2
        = Action.newConnection :: Action.send Frame.connectionInit :: Action.logMsg
          :: Action.ackWait
          :: s.subs.map (fun sub => Action.send (Frame.subscribe sub.id sub.payload))
      ∧ ((reconnectRound s env).2.filter isSubscribeSend)
        = s.subs.map (fun sub => Action.send (Frame.subscribe sub.id sub.payload))
      ∧ ((reconnectRound s env).2.filter isSubscribeSend).length = s.subs.length := by
  have he : (reconnectRound s env).2
      = Action.newConnection :: Action.send Frame.connectionInit :: Action.logMsg
        :: Action.ackWait
        :: s.subs.map (fun sub => Action.send (Frame.subscribe sub.id sub.payload)) := by
    simp [reconnectRound, resubscribe_all, hc, ha]
  have hf : ((reconnectRound s env).2.filter isSubscribeSend)
      = s.subs.map (fun sub => Action.send (Frame.subscribe sub.id sub.payload)) := by
    rw [he]
    simp [List.filter, isSubscribeSend, filter_isSubscribeSend_map]
  exact ⟨he, hf, by rw [hf, List.length_map]⟩

theorem c1_resubscription_replay_witness :
    (reconnectRound ⟨[⟨"a", 0, "p1"⟩, ⟨"b", 1, "p2"⟩], false, false, false, 2⟩
        ⟨true, true, 0⟩).2
      = Action.newConnection :: Action.send Frame.connectionInit :: Action.logMsg
        :: Action.ackWait
        :: [Action.send (Frame.subscribe "a" "p1"), Action.send (Frame.subscribe "b" "p2")] := by
  have h := (c1_resubscription_replay
    ⟨[⟨"a", 0, "p1"⟩, ⟨"b", 1, "p2"⟩], false, false, false, 2⟩ ⟨true, true, 0⟩ rfl rfl).1
  simpa using h

/-- C2: ack-gating of subscribe. A call to the public subscribe entry
point made before any `connection_ack` has been received either proceeds
because the ack arrives within the configured timeout, or returns `None`:
when the ack never arrives no handle is returned, no subscribe frame is
sent and the registry is unchanged (the subscription is not silently
queued); and whenever a handle is returned, the subscribe frame for it
was sent during the call. -/
theorem c2_ack_gating (s : MonState) (env : SubscribeEnv) (cb : Nat) (payload : String)
    (hna : s.acked = false) :
    (env.ackOk = false →
        (subscribe_for_vehicle_updates s env cb payload).1 = none
        ∧ (subscribe_for_vehicle_updates s env cb payload).2.1.subs = s.subs
        ∧ ∀ f ∈ (subscribe_for_vehicle_updates s env cb payload).2.2,
            ∀ id p, f ≠ Frame.subscribe id p)
    ∧ ∀ h, (subscribe_for_vehicle_updates s env cb payload).1 = some h →
        Frame.subscribe h payload ∈ (subscribe_for_vehicle_updates s env cb payload).2.2 := by
  cases hd : s.disconnect <;> cases hw : s.wsOpen <;> cases hco : env.connectOk <;>
    cases hao : env.ackOk <;>
      simp [subscribe_for_vehicle_updates, start_subscription, connected, hd, hw, hco, hao, hna]

theorem c2_ack_gating_witness :
    (subscribe_for_vehicle_updates ⟨[], false, true, false, 0⟩ ⟨true, false, "u"⟩ 0 "p").1
        = none
      ∧ (subscribe_for_vehicle_updates ⟨[], false, true, false, 0⟩
          ⟨true, false, "u"⟩ 0 "p").2.1.subs = ([] : List Sub) :=
  ⟨((c2_ack_gating ⟨[], false, true, false, 0⟩ ⟨true, false, "u"⟩ 0 "p" rfl).1 rfl).1,
   ((c2_ack_gating ⟨[], false, true, false, 0⟩ ⟨true, false, "u"⟩ 0 "p" rfl).1 rfl).2.1⟩

theorem any_eq_filter_ne (l : List Sub) (id : String) :
    (l.filter (fun sub => !(sub.id == id))).any (fun sub => sub.id == id) = false := by
  induction l with
  | nil => rfl
  | cons x xs ih =>
    cases hx : (x.id == id) <;> simp only [List.filter, hx, Bool.not_true,
      Bool.not_false, List.any_cons, Bool.false_or] <;> exact ih

theorem unsubscribe_pos (s : MonState) (id : String)
    (h : s.subs.any (fun sub => sub.id == id) = true) :
    unsubscribe s id
      = ({ s with subs := s.subs.filter (fun sub => !(sub.id == id)) },
         if connected s then [Frame.complete id] else []) := by
  unfold unsubscribe
  rw [h]
  simp

theorem unsubscribe_neg (s : MonState) (id : String)
    (h : s.subs.any (fun sub => sub.id == id) = false) :
    unsubscribe s id = (s, []) := by
  unfold unsubscribe
  rw [h]
  simp

/-- C7: unsubscribe idempotence. Invoking the unsubscribe handle a second
time sends no second `complete` frame and changes nothing; the first
invocation removes the registry entry and sends the `complete` frame only
if still connected, and when already disconnected it is local-only. -/
theorem c7_unsubscribe_idempotence (s : MonState) (id : String) :
    (unsubscribe (unsubscribe s id).1 id).2 = []
      ∧ (unsubscribe (unsubscribe s id).1 id).1 = (unsubscribe s id).1
      ∧ (unsubscribe s id).1.subs.any (fun sub => sub.id == id) = false
      ∧ (connected s = false → (unsubscribe s id).2 = [])
      ∧ (s.subs.any (fun sub => sub.id == id) = true → connected s = true →
          (unsubscribe s id).2 = [Frame.complete id]) := by
  cases hmem : s.subs.any (fun sub => sub.id == id) with
  | false =>
    have h1 : unsubscribe s id = (s, []) := unsubscribe_neg s id hmem
    refine ⟨?_, ?_, ?_, fun _ => ?_, fun h _ => absurd h Bool.false_ne_true⟩
    · rw [h1]
      show (unsubscribe s id).2 = []
      rw [h1]
    · rw [h1]
      show (unsubscribe s id).1 = (s, []).1
      rw [h1]
    · rw [h1]
      exact hmem
    · rw [h1]
  | true =>
    have h1 := unsubscribe_pos s id hmem
    have hgone : (unsubscribe s id).1.subs.any (fun sub => sub.id == id) = false := by
      rw [h1]
      exact any_eq_filter_ne s.subs id
    have h2 : unsubscribe (unsubscribe s id).1 id = ((unsubscribe s id).1, []) :=
      unsubscribe_neg _ id hgone
    refine ⟨?_, ?_, hgone, ?_, ?_⟩
    · rw [h2]
    · rw [h2]
    · intro hc
      rw [h1]
      simp [hc]
    · intro _ hc
      rw [h1]
      simp [hc]

theorem c7_unsubscribe_idempotence_witness :
    (unsubscribe (unsubscribe ⟨[⟨"a", 0, "p"⟩], false, true, true, 0⟩ "a").1 "a").2 = []
      ∧ (unsubscribe ⟨[⟨"a", 0, "p"⟩], false, true, true, 0⟩ "a").2
        = [Frame.complete "a"] :=
  ⟨(c7_unsubscribe_idempotence ⟨[⟨"a", 0, "p"⟩], false, true, true, 0⟩ "a").1,
   (c7_unsubscribe_idempotence ⟨[⟨"a", 0, "p"⟩], false, true, true, 0⟩ "a").2.2.2.2
     (by decide) rfl⟩

/-- C8: an unauthenticated close is permanent. When the receive loop gets
a close frame whose reason is the explicit string "Unauthenticated", it
sets the disconnect flag and stops, and with the disconnect flag set the
monitor loop runs no further iteration: it performs no `new_connection`
call for any remaining fuel and inputs. -/
theorem c8_unauthenticated_close_permanent (s : MonState) (fuel : Nat)
    (envs : List ReconnectEnv) :
    ((receiverStep s (WSMsg.close (some "Unauthenticated"))).1).disconnect = true
      ∧ (receiverStep s (WSMsg.close (some "Unauthenticated"))).2.2 = false
      ∧ ∀ s1 : MonState, s1.disconnect = true →
          monitorRun fuel s1 envs = []
          ∧ Action.newConnection ∉ monitorRun fuel s1 envs := by
  refine ⟨by simp [receiverStep], by simp [receiverStep], ?_⟩
  intro s1 h
  have he : monitorRun fuel s1 envs = [] := by
    cases fuel with
    | zero => rfl
    | succ k =>
      cases envs with
      | nil => rfl
      | cons e rest => simp [monitorRun, h]
  exact ⟨he, by simp [he]⟩

theorem c8_unauthenticated_close_permanent_witness :
    monitorRun 5 ⟨[⟨"a", 0, "p"⟩], true, false, false, 0⟩ [⟨true, true, 0⟩] = [] :=
  ((c8_unauthenticated_close_permanent ⟨[⟨"a", 0, "p"⟩], true, false, false, 0⟩ 5
      [⟨true, true, 0⟩]).2.2 ⟨[⟨"a", 0, "p"⟩], true, false, false, 0⟩ rfl).1

/-- C10: unknown-id data frames are silently dropped. When the receive
loop reads a `next` frame whose id is not registered, no callback is
invoked, the state is unchanged and the loop keeps reading. -/
theorem c10_unknown_id_dropped (s : MonState) (id payload : String)
    (h : s.subs.find? (fun sub => sub.id == id) = none) :
    receiverStep s (WSMsg.text (TextData.next id payload)) = (s, [], true) := by
  simp [receiverStep, h]

/-- C6: identity mismatch aborts BLE pairing. When the vehicle-identity
notification arrives but its hex differs from the dash-stripped expected
`vas_vehicle_id`, `pair_phone` reports failure and no write to the nonce
characteristic ever occurs. -/
theorem c6_identity_mismatch_aborts (env : BleEnv) (phone_id vas_vehicle_id : List Char)
    (vehicle_key : P256Point) (private_key : Nat) (data : List Nat)
    (hd : env.idNotifData = some data)
    (hm : (bytesToHex data == stripDashes vas_vehicle_id) = false) :
    (pair_phone env phone_id vas_vehicle_id vehicle_key private_key).1 = false
      ∧ ∀ w ∈ (pair_phone env phone_id vas_vehicle_id vehicle_key private_key).2,
          w.1 ≠ PHONE_NONCE_VEHICLE_NONCE_UUID := by
  have huuid : PHONE_ID_VEHICLE_ID_UUID ≠ PHONE_NONCE_VEHICLE_NONCE_UUID := by decide
  obtain ⟨c, i1, i2, iw, nd, nw, nn, pn, b⟩ := env
  simp only at hd hm
  subst hd
  cases c <;> cases i1 <;> cases i2 <;> cases iw <;>
    cases hde : data.isEmpty <;>
      simp [pair_phone, hm, hde, huuid]

theorem c6_identity_mismatch_aborts_witness :
    (pair_phone ⟨true, true, true, true, some [0], true, true, [], true⟩
        ['a'] ['f', 'f'] 0 0).1 = false :=
  (c6_identity_mismatch_aborts ⟨true, true, true, true, some [0], true, true, [], true⟩
    ['a'] ['f', 'f'] 0 0 [0] rfl (by decide)).1

/-- C9: BLE pairing boundary contract. `pair_phone` is a total boolean
function of the attempt environment — every step failure (connect
timeout, notification setup failure, write error, notification timeout,
identity mismatch, bonding failure) yields the result `false` rather than
a propagated exception — and it returns `true` exactly when every step of
the handshake up to and including the bonding trigger completed. -/
theorem c9_ble_boundary_contract (env : BleEnv) (phone_id vas_vehicle_id : List Char)
    (vehicle_key : P256Point) (private_key : Nat) :
    (pair_phone env phone_id vas_vehicle_id vehicle_key private_key).1
      = allStepsOk env vas_vehicle_id := by
  obtain ⟨c, i1, i2, iw, nd, nw, nn, pn, b⟩ := env
  rcases nd with _ | data
  · cases c <;> cases i1 <;> cases i2 <;> cases iw <;> simp [pair_phone, allStepsOk]
  · cases c <;> cases i1 <;> cases i2 <;> cases iw <;> cases nw <;> cases nn <;> cases b <;>
      cases hde : data.isEmpty <;>
        cases hm : bytesToHex data == stripDashes vas_vehicle_id <;>
          simp [pair_phone, allStepsOk, hde, hm]

theorem c10_unknown_id_dropped_witness :
    receiverStep ⟨[⟨"a", 0, "p"⟩], false, true, true, 0⟩
        (WSMsg.text (TextData.next "b" "q"))
      = (⟨[⟨"a", 0, "p"⟩], false, true, true, 0⟩, [], true) :=
  c10_unknown_id_dropped ⟨[⟨"a", 0, "p"⟩], false, true, true, 0⟩ "b" "q" (by decide)

end Rivian
